import Mathlib

/-
Verification of the binlookup Go package (src/binlookup.go) against its
specification.  The package exposes a single operation `Search` that
validates a BIN string, performs one HTTP GET against
lookup.binlist.net, classifies the response status, and decodes the JSON
body into a `BIN` record.

The embedding below is a shallow one: the HTTP transport is an explicit
oracle (a function from requests to results), JSON bodies are modelled
as parsed JSON values (or a malformed-body marker for bodies that are
not valid JSON), and the Go error values that can flow out of `Search`
are modelled as an inductive type mirroring their dynamic structure
(the wrappers of github.com/pkg/errors, the `StatusCodeError` named
integer type, url.Error transport failures and encoding/json decode
failures).  Side effects of a call (which requests were issued, whether
the response body was closed) are returned explicitly.
-/

set_option autoImplicit false

namespace Binlookup

/-- JSON values as produced by a JSON parser: null, booleans, numbers
(modelled as rationals, the exact values denoted by JSON number
literals), strings, arrays and objects (ordered key/value lists, the
order in which the keys appear in the serialized body). -/
inductive Json where
  | null
  | bool (b : Bool)
  | num (q : ℚ)
  | str (s : String)
  | arr (elems : List Json)
  | obj (fields : List (String × Json))

/-- An HTTP response body: either not valid JSON at all (including an
empty body, which encoding/json reports as an EOF error), carrying the
parse-failure message, or a well-formed JSON value. -/
inductive Body where
  | malformed (msg : String)
  | value (v : Json)

/-- Go error values as they can occur in this package.
`fundamental` is an error built by errors.New of github.com/pkg/errors;
`urlError` is the url.Error value that net/http Client.Get returns on a
transport failure (operation, URL, and the message of the underlying
cause); `jsonError` is a decode failure from encoding/json;
`statusCodeError` is the exported named type StatusCodeError of this
package, an integer; `wrap` covers errors.Wrap and errors.WithMessage
of github.com/pkg/errors, which prepend a message and keep the cause
(the stack recorded by errors.Wrap carries no observable structure and
is omitted). -/
inductive GoErr where
  | fundamental (msg : String)
  | urlError (op url msg : String)
  | jsonError (msg : String)
  | statusCodeError (code : Nat)
  | wrap (msg : String) (cause : GoErr)
  deriving Repr, DecidableEq

/-- errors.Cause of github.com/pkg/errors: repeatedly unwrap errors
that expose a cause (the wrappers made by errors.Wrap and
errors.WithMessage); every other error is its own cause. -/
def GoErr.cause : GoErr → GoErr
  | .wrap _ e => e.cause
  | e => e

/-- http.StatusText of net/http: the standard reason phrase for an HTTP
status code, and the empty string for unknown codes. -/
def statusText : Nat → String
  | 100 => "Continue"
  | 101 => "Switching Protocols"
  | 102 => "Processing"
  | 103 => "Early Hints"
  | 200 => "OK"
  | 201 => "Created"
  | 202 => "Accepted"
  | 203 => "Non-Authoritative Information"
  | 204 => "No Content"
  | 205 => "Reset Content"
  | 206 => "Partial Content"
  | 207 => "Multi-Status"
  | 208 => "Already Reported"
  | 226 => "IM Used"
  | 300 => "Multiple Choices"
  | 301 => "Moved Permanently"
  | 302 => "Found"
  | 303 => "See Other"
  | 304 => "Not Modified"
  | 305 => "Use Proxy"
  | 307 => "Temporary Redirect"
  | 308 => "Permanent Redirect"
  | 400 => "Bad Request"
  | 401 => "Unauthorized"
  | 402 => "Payment Required"
  | 403 => "Forbidden"
  | 404 => "Not Found"
  | 405 => "Method Not Allowed"
  | 406 => "Not Acceptable"
  | 407 => "Proxy Authentication Required"
  | 408 => "Request Timeout"
  | 409 => "Conflict"
  | 410 => "Gone"
  | 411 => "Length Required"
  | 412 => "Precondition Failed"
  | 413 => "Request Entity Too Large"
  | 414 => "Request URI Too Long"
  | 415 => "Unsupported Media Type"
  | 416 => "Requested Range Not Satisfiable"
  | 417 => "Expectation Failed"
  | 418 => "I\x27m a teapot"
  | 421 => "Misdirected Request"
  | 422 => "Unprocessable Entity"
  | 423 => "Locked"
  | 424 => "Failed Dependency"
  | 425 => "Too Early"
  | 426 => "Upgrade Required"
  | 428 => "Precondition Required"
  | 429 => "Too Many Requests"
  | 431 => "Request Header Fields Too Large"
  | 451 => "Unavailable For Legal Reasons"
  | 500 => "Internal Server Error"
  | 501 => "Not Implemented"
  | 502 => "Bad Gateway"
  | 503 => "Service Unavailable"
  | 504 => "Gateway Timeout"
  | 505 => "HTTP Version Not Supported"
  | 506 => "Variant Also Negotiates"
  | 507 => "Insufficient Storage"
  | 508 => "Loop Detected"
  | 510 => "Not Extended"
  | 511 => "Network Authentication Required"
  | _ => ""

/-- The Error method of each modelled Go error value, that is, the
displayable message.  StatusCodeError formats itself (binlookup.go
line 22) as the decimal code, a space, and http.StatusText of the code;
url.Error formats as the operation, the quoted URL and the cause;
the wrappers of github.com/pkg/errors prepend their message and a
colon. -/
def GoErr.message : GoErr → String
  | .fundamental m => m
  | .urlError op u m => op ++ " \x22" ++ u ++ "\x22: " ++ m
  | .jsonError m => m
  | .statusCodeError c => toString c ++ " " ++ statusText c
  | .wrap m e => m ++ ": " ++ e.message

/-- Extraction of the numeric status code from an error value, the way
the package documentation tells callers to do it: take errors.Cause of
the error and assert the StatusCodeError type; the code is the integer
value of that named type. -/
def GoErr.statusCode? (e : GoErr) : Option Nat :=
  match e.cause with
  | .statusCodeError c => some c
  | _ => none

/-- The `Number` struct of binlookup.go: placeholder for the `number`
JSON object in `BIN`. -/
structure Number where
  Length : Int := 0
  Luhn : Bool := false
  deriving Repr, DecidableEq

/-- The `Country` struct of binlookup.go: placeholder for the `country`
JSON object in `BIN`.  `Short` carries the json tag alpha2, `Lat` the
tag latitude and `Long` the tag longitude. -/
structure Country where
  Numeric : String := ""
  Name : String := ""
  Emoji : String := ""
  Currency : String := ""
  Short : String := ""
  Lat : ℚ := 0
  Long : ℚ := 0
  deriving Repr, DecidableEq

/-- The `Bank` struct of binlookup.go: placeholder for the `bank` JSON
object in `BIN`. -/
structure Bank where
  Name : String := ""
  URL : String := ""
  Phone : String := ""
  City : String := ""
  deriving Repr, DecidableEq

/-- The `BIN` struct of binlookup.go: placeholder hosting the
deserialized JSON payload returned by upstream. -/
structure BIN where
  Number : Number := {}
  Scheme : String := ""
  «Type» : String := ""
  Brand : String := ""
  Prepaid : Bool := false
  Country : Country := {}
  Bank : Bank := {}
  deriving Repr, DecidableEq

/-- The character fold of the encoding/json key matcher: ASCII upper
case folds to lower case, and the only two code points outside ASCII
that fold to ASCII letters, the Kelvin sign (U+212A, to k) and the
long s (U+017F, to s), are folded the same way the fold table of
encoding/json does. -/
def lowerChar (c : Char) : Char :=
  if 65 ≤ c.toNat && c.toNat ≤ 90 then Char.ofNat (c.toNat + 32)
  else if c.toNat = 8490 then Char.ofNat 107
  else if c.toNat = 383 then Char.ofNat 115
  else c

/-- encoding/json field matching: a JSON object key selects a struct
field by an exact match of the field name (or its json tag) or, failing
that, a case-insensitive match.  The field names of this package never
collide case-insensitively, so the two rules collapse to one
case-insensitive comparison. -/
def matchKey (field key : String) : Bool :=
  field == key || field.data.map lowerChar == key.data.map lowerChar

/- Scalar decoding returns the decoded value together with an
optional error message: on an unmarshal type error encoding/json saves
the error, leaves the destination field unchanged and keeps decoding
(only the first saved error is reported), so every decoding step below
yields both the (possibly unchanged) value and the optional first
error of that step. -/

/-- The base-two logarithm of a natural number by fuelled structural
recursion (so that the kernel can evaluate it on literals). -/
def log2Fuel : ℕ → ℕ → ℕ
  | 0, _ => 0
  | fuel + 1, n => if 2 ≤ n then log2Fuel fuel (n / 2) + 1 else 0

/-- The floor of the base-two logarithm of a positive natural
number. -/
def natLog2 (n : ℕ) : ℕ :=
  log2Fuel n n

/-- Whether the positive rational n over d is below 2 to the k,
decided by integer cross-multiplication. -/
def ltPow2 (n d : ℕ) (k : ℤ) : Bool :=
  if 0 ≤ k then decide (n < d * 2 ^ k.toNat) else decide (n * 2 ^ (-k).toNat < d)

/-- The floor of the base-two logarithm of the positive rational n
over d, computed from the logarithms of numerator and denominator and
corrected by comparison. -/
def floorLog2Pos (n d : ℕ) : ℤ :=
  let l : ℤ := (natLog2 n : ℤ) - (natLog2 d : ℤ)
  if ltPow2 n d (l - 1) then l - 2
  else if ltPow2 n d l then l - 1
  else if ltPow2 n d (l + 1) then l
  else if ltPow2 n d (l + 2) then l + 1
  else l + 2

/-- Rounding of the fraction N over D (D positive) to the nearest
natural number, ties to the even neighbour (the IEEE 754 default
rounding used by strconv). -/
def roundScaled (N D : ℕ) : ℕ :=
  let q0 := N / D
  let r2 := 2 * (N % D)
  if r2 < D then q0
  else if D < r2 then q0 + 1
  else if q0 % 2 = 0 then q0 else q0 + 1

/-- Conversion of a JSON number to a float64 the way
strconv.ParseFloat does it for encoding/json: round the exact decimal
value to the nearest binary64 value (ties to even, gradual underflow
to zero without error, unit in the last place never below 2 to the
-1074), and report a range error when the rounded magnitude reaches 2
to the 1024, which ParseFloat turns into infinity and encoding/json
into an unmarshal error.  The result is the exact rational value of
the float64. -/
def roundFloat64 (q : ℚ) : Except String ℚ :=
  if q.num = 0 then .ok 0
  else
    let n : ℕ := q.num.natAbs
    let d : ℕ := q.den
    let e : ℤ := floorLog2Pos n d - 52
    let ulp : ℤ := if e < -1074 then -1074 else e
    let m : ℕ :=
      if 0 ≤ ulp then roundScaled n (d * 2 ^ ulp.toNat)
      else roundScaled (n * 2 ^ (-ulp).toNat) d
    let overflow : Bool :=
      if 0 ≤ ulp then decide (2 ^ 1024 ≤ m * 2 ^ ulp.toNat)
      else decide (2 ^ (1024 + (-ulp).toNat) ≤ m)
    if overflow then
      .error "json: cannot unmarshal number into Go value of type float64"
    else
      let mag : ℚ :=
        if 0 ≤ ulp then ((m * 2 ^ ulp.toNat : ℕ) : ℚ)
        else Rat.divInt (m : ℤ) ((2 ^ (-ulp).toNat : ℕ) : ℤ)
      .ok (if q.num < 0 then -mag else mag)

/-- The smallest value of the Go int type (int64 on the platforms the
package targets). -/
def int64Min : ℤ := -9223372036854775808

/-- The largest value of the Go int type. -/
def int64Max : ℤ := 9223372036854775807

/-- encoding/json decoding of a JSON value into a Go string field: a
JSON string is copied, JSON null leaves the field unchanged, anything
else is an unmarshal type error. -/
def decodeString (v : Json) (old : String) : String × Option String :=
  match v with
  | .str s => (s, none)
  | .null => (old, none)
  | _ => (old, some "json: cannot unmarshal value into Go value of type string")

/-- encoding/json decoding of a JSON value into a Go bool field. -/
def decodeBool (v : Json) (old : Bool) : Bool × Option String :=
  match v with
  | .bool b => (b, none)
  | .null => (old, none)
  | _ => (old, some "json: cannot unmarshal value into Go value of type bool")

/-- encoding/json decoding of a JSON value into a Go int field: the
number must denote an integer within the int64 range
(strconv.ParseInt with bit size 64; out-of-range numbers are an
unmarshal type error), JSON null leaves the field unchanged. -/
def decodeInt (v : Json) (old : Int) : Int × Option String :=
  match v with
  | .num q =>
    if q.den = 1 then
      if int64Min ≤ q.num ∧ q.num ≤ int64Max then (q.num, none)
      else (old, some "json: cannot unmarshal number into Go value of type int")
    else (old, some "json: cannot unmarshal number into Go value of type int")
  | .null => (old, none)
  | _ => (old, some "json: cannot unmarshal value into Go value of type int")

/-- encoding/json decoding of a JSON value into a Go float64 field:
the number is rounded to the nearest float64, overflow is an unmarshal
type error, JSON null leaves the field unchanged. -/
def decodeFloat (v : Json) (old : ℚ) : ℚ × Option String :=
  match v with
  | .num q =>
    match roundFloat64 q with
    | .ok r => (r, none)
    | .error m => (old, some m)
  | .null => (old, none)
  | _ => (old, some "json: cannot unmarshal value into Go value of type float64")

/-- One iteration of the object-decoding loop of encoding/json: route
the key/value pair into the struct being filled with `step` and keep
the first error saved so far (d.saveError keeps only the first
error; decoding continues after it). -/
def foldStep {β : Type} (step : β → String × Json → β × Option String)
    (p : β × Option String) (kv : String × Json) : β × Option String :=
  let r := step p.1 kv
  (r.1, p.2 <|> r.2)

/-- The object-decoding loop of encoding/json: process the keys of a
JSON object in the order they appear, letting `step` route each
key/value pair into the struct being filled (later duplicates of a key
overwrite earlier ones); an unmarshal type error is saved, the field
loop continues, and the first saved error is reported. -/
def runFields {β : Type} (step : β → String × Json → β × Option String)
    (fs : List (String × Json)) (acc : β) : β × Option String :=
  fs.foldl (foldStep step) (acc, none)

/-- One key/value pair routed into a `Number` struct: keys matching the
fields Length and Luhn are decoded into them, unknown keys are
ignored. -/
def stepNumber (acc : Number) (kv : String × Json) : Number × Option String :=
  if matchKey "Length" kv.1 then
    let r := decodeInt kv.2 acc.Length
    ({ acc with Length := r.1 }, r.2)
  else if matchKey "Luhn" kv.1 then
    let r := decodeBool kv.2 acc.Luhn
    ({ acc with Luhn := r.1 }, r.2)
  else (acc, none)

/-- encoding/json decoding of a JSON value into a `Number` struct
field: null leaves it unchanged, an object is decoded field by field,
anything else is an unmarshal type error (saved, with the field left
as it was). -/
def decodeNumber (v : Json) (old : Number) : Number × Option String :=
  match v with
  | .null => (old, none)
  | .obj fs => runFields stepNumber fs old
  | _ => (old, some "json: cannot unmarshal value into Go value of type binlookup.Number")

/-- One key/value pair routed into a `Country` struct: the tagged
fields Short, Lat and Long are matched by their json tags alpha2,
latitude and longitude. -/
def stepCountry (acc : Country) (kv : String × Json) : Country × Option String :=
  if matchKey "Numeric" kv.1 then
    let r := decodeString kv.2 acc.Numeric
    ({ acc with Numeric := r.1 }, r.2)
  else if matchKey "Name" kv.1 then
    let r := decodeString kv.2 acc.Name
    ({ acc with Name := r.1 }, r.2)
  else if matchKey "Emoji" kv.1 then
    let r := decodeString kv.2 acc.Emoji
    ({ acc with Emoji := r.1 }, r.2)
  else if matchKey "Currency" kv.1 then
    let r := decodeString kv.2 acc.Currency
    ({ acc with Currency := r.1 }, r.2)
  else if matchKey "alpha2" kv.1 then
    let r := decodeString kv.2 acc.Short
    ({ acc with Short := r.1 }, r.2)
  else if matchKey "latitude" kv.1 then
    let r := decodeFloat kv.2 acc.Lat
    ({ acc with Lat := r.1 }, r.2)
  else if matchKey "longitude" kv.1 then
    let r := decodeFloat kv.2 acc.Long
    ({ acc with Long := r.1 }, r.2)
  else (acc, none)

/-- encoding/json decoding of a JSON value into a `Country` struct
field. -/
def decodeCountry (v : Json) (old : Country) : Country × Option String :=
  match v with
  | .null => (old, none)
  | .obj fs => runFields stepCountry fs old
  | _ => (old, some "json: cannot unmarshal value into Go value of type binlookup.Country")

/-- One key/value pair routed into a `Bank` struct. -/
def stepBank (acc : Bank) (kv : String × Json) : Bank × Option String :=
  if matchKey "Name" kv.1 then
    let r := decodeString kv.2 acc.Name
    ({ acc with Name := r.1 }, r.2)
  else if matchKey "URL" kv.1 then
    let r := decodeString kv.2 acc.URL
    ({ acc with URL := r.1 }, r.2)
  else if matchKey "Phone" kv.1 then
    let r := decodeString kv.2 acc.Phone
    ({ acc with Phone := r.1 }, r.2)
  else if matchKey "City" kv.1 then
    let r := decodeString kv.2 acc.City
    ({ acc with City := r.1 }, r.2)
  else (acc, none)

/-- encoding/json decoding of a JSON value into a `Bank` struct
field. -/
def decodeBank (v : Json) (old : Bank) : Bank × Option String :=
  match v with
  | .null => (old, none)
  | .obj fs => runFields stepBank fs old
  | _ => (old, some "json: cannot unmarshal value into Go value of type binlookup.Bank")

/-- One key/value pair routed into the top-level `BIN` struct. -/
def stepBIN (acc : BIN) (kv : String × Json) : BIN × Option String :=
  if matchKey "Number" kv.1 then
    let r := decodeNumber kv.2 acc.Number
    ({ acc with Number := r.1 }, r.2)
  else if matchKey "Scheme" kv.1 then
    let r := decodeString kv.2 acc.Scheme
    ({ acc with Scheme := r.1 }, r.2)
  else if matchKey "Type" kv.1 then
    let r := decodeString kv.2 acc.«Type»
    ({ acc with «Type» := r.1 }, r.2)
  else if matchKey "Brand" kv.1 then
    let r := decodeString kv.2 acc.Brand
    ({ acc with Brand := r.1 }, r.2)
  else if matchKey "Prepaid" kv.1 then
    let r := decodeBool kv.2 acc.Prepaid
    ({ acc with Prepaid := r.1 }, r.2)
  else if matchKey "Country" kv.1 then
    let r := decodeCountry kv.2 acc.Country
    ({ acc with Country := r.1 }, r.2)
  else if matchKey "Bank" kv.1 then
    let r := decodeBank kv.2 acc.Bank
    ({ acc with Bank := r.1 }, r.2)
  else (acc, none)

/-- encoding/json decoding of a JSON value into a zeroed `BIN`
struct. -/
def decodeBIN (v : Json) (old : BIN) : BIN × Option String :=
  match v with
  | .null => (old, none)
  | .obj fs => runFields stepBIN fs old
  | _ => (old, some "json: cannot unmarshal value into Go value of type binlookup.BIN")

/-- json.NewDecoder(resp.Body).Decode(&b) where b has type pointer to
`BIN`: JSON null stores a nil pointer; any other value first allocates
a zero `BIN` (indirect does this before the value is examined, so even
a mismatched scalar leaves an allocated record behind) and then
decodes into it, saving type errors while the decode continues; the
record, partially decoded on error, is returned together with the
first saved error. -/
def decodeBINptr (v : Json) : Option BIN × Option String :=
  match v with
  | .null => (none, none)
  | _ =>
    let r := decodeBIN v {}
    (some r.1, r.2)

/-- Decode an HTTP response body: a body that is not valid JSON is the
underlying parse failure of encoding/json and leaves the nil pointer;
a valid JSON value is decoded into an optional `BIN` record with the
optional first decode error. -/
def decodeBody : Body → Option BIN × Option String
  | .malformed msg => (none, some msg)
  | .value v => decodeBINptr v

/-- The validation pattern of Search (binlookup.go line 85), the
compiled regular expression caret [1-9] backslash-d braces 3,15
dollar: the first character is a digit 1 to 9 and it is followed by 3
to 15 further decimal digits, nothing else. -/
def binMatch (s : String) : Bool :=
  match s.data with
  | [] => false
  | c :: rest =>
    (decide ('1' ≤ c) && decide (c ≤ '9')) && rest.all (fun d => d.isDigit)
      && decide (3 ≤ rest.length) && decide (rest.length ≤ 15)

/-- The validation error built by Search (binlookup.go line 86) when
the BIN fails the pattern: errors.New with a description of the
required format. -/
def ValidationError : GoErr :=
  .fundamental "BIN must be fully numerical, first digit must be in range of 1-9, and the next digits must be 3-15 characters long."

/-- The lookup URL built by Search (binlookup.go line 91):
fmt.Sprintf of the fixed base and the bin string (the percent-v verb on
a string is the string itself). -/
def upstreamURL (bin : String) : String :=
  "https://lookup.binlist.net/" ++ bin

/-- An outbound HTTP request: method and URL. -/
structure Request where
  method : String
  url : String
  deriving Repr, DecidableEq

/-- What the HTTP transport does with one request: fail (Client.Get
then returns a url.Error carrying the operation, the URL and the
underlying cause, and no response exists), or deliver a response with a
status code and a body. -/
inductive HTTPResult where
  | failure (op url msg : String)
  | response (statusCode : Nat) (body : Body)

/-- The HTTP transport as an oracle: the behaviour of the configured
http.Client on each request. -/
def Transport : Type := Request → HTTPResult

/-- The one request Search can issue for a given bin: Client.Get of
the lookup URL, that is, a GET. -/
def lookupRequest (bin : String) : Request :=
  { method := "GET", url := upstreamURL bin }

/-- Everything one call to Search produces: the record pointer `b` and
error `err` that the Go function returns, plus its observable side
effects: which outbound requests were issued, in order, and how many
times the response body was closed. -/
structure SearchOut where
  b : Option BIN := none
  err : Option GoErr := none
  requests : List Request := []
  bodiesClosed : Nat := 0
  deriving Repr, DecidableEq

/-- The Search function of binlookup.go (lines 84 to 111), over an
explicit transport oracle.  It validates the bin against the pattern
and fails with `ValidationError` before any request when the match
fails; otherwise it issues exactly one GET to the lookup URL.  A
transport failure is returned as is.  The deferred resp.Body.Close runs
on every path on which a response was obtained.  A status code other
than 200 fails with StatusCodeError wrapped by errors.Wrap; a body that
fails to decode fails with the decode error wrapped by
errors.WithMessage, the named return b keeping whatever the decoder
left in it (nil on a syntax error, the partially decoded allocation on
a shape error); otherwise the decoded record is returned. -/
def Search (client : Transport) (bin : String) : SearchOut :=
  if !binMatch bin then
    { err := some ValidationError }
  else
    let req : Request := lookupRequest bin
    match client req with
    | .failure op u msg =>
      { err := some (.urlError op u msg), requests := [req] }
    | .response s body =>
      if s ≠ 200 then
        { err := some (.wrap "Failed Due to Status Code Error" (.statusCodeError s)),
          requests := [req], bodiesClosed := 1 }
      else
        let dec := decodeBody body
        match dec.2 with
        | some m =>
          { b := dec.1, err := some (.wrap "JSON Unmarshaling Failed" (.jsonError m)),
            requests := [req], bodiesClosed := 1 }
        | none =>
          { b := dec.1, requests := [req], bodiesClosed := 1 }

/-- The four failure kinds of the spec error taxonomy: validation
failure, transport failure, an upstream status code other than 200, and
decode failure. -/
inductive FailureKind where
  | validation
  | transport
  | status
  | decode
  deriving Repr, DecidableEq

/-- Classification of an error value by inspecting the error value
alone, the way a Go caller can: take errors.Cause of the value and look
at its dynamic type.  A url.Error is a transport failure, the
StatusCodeError named type is an upstream status failure, an
encoding/json error is a decode failure, and a bare message error
built by errors.New is the validation failure. -/
def classify (e : GoErr) : Option FailureKind :=
  match e.cause with
  | .fundamental _ => some .validation
  | .urlError _ _ _ => some .transport
  | .statusCodeError _ => some .status
  | .jsonError _ => some .decode
  | .wrap _ _ => none

/-- Which failure a call of Search actually runs into, read off the
inputs of the call: the bin fails validation, or the transport fails,
or the response status is not 200, or the body fails to decode; none
when the call succeeds. -/
def failureOf (client : Transport) (bin : String) : Option FailureKind :=
  if !binMatch bin then
    some .validation
  else
    match client (lookupRequest bin) with
    | .failure _ _ _ => some .transport
    | .response s body =>
      if s ≠ 200 then some .status
      else
        match (decodeBody body).2 with
        | some _ => some .decode
        | none => none

/-- Nanoseconds in one time.Second of the Go time package. -/
def timeSecond : Nat := 1000000000

/-- The configuration of a Go http.Client recorded by this model: its
timeout in nanoseconds. -/
structure GoHTTPClient where
  Timeout : Nat
  deriving Repr, DecidableEq

/-- The package-level default client of binlookup.go (line 16): an
http.Client with a timeout of 10 times time.Second.  It is an exported
package variable, so an embedding application can replace it. -/
def Client : GoHTTPClient := { Timeout := 10 * timeSecond }

/-!
Spec-side model of the upstream success payload.  The wire contract of
the spec says every field of the documented JSON shape is optional and
nullable from the point of view of the client, that present fields are
copied without transformation and that missing fields decode to
zero-value equivalents.  The definitions below state that contract by
the words of the spec, to be compared with the decoder embedded from
the source.
-/

/-- Presence of one optional, nullable field of the documented payload:
absent from the object, present as JSON null, or present with a typed
value. -/
inductive Field (α : Type) where
  | absent
  | null
  | val (a : α)

/-- The JSON object entries contributed by one optional field. -/
def Field.entry {α : Type} (key : String) (enc : α → Json) : Field α → List (String × Json)
  | .absent => []
  | .null => [(key, Json.null)]
  | .val a => [(key, enc a)]

/-- The reading of one optional scalar field the spec promises: a
present value is copied, an absent or null field becomes the zero
value. -/
def Field.zeroOr {α : Type} (zero : α) : Field α → α
  | .val a => a
  | _ => zero

/-- The reading of one optional composite field: a present object is
decoded by `g`, an absent or null object leaves the zero record. -/
def Field.nested {α β : Type} (zero : β) (g : α → β) : Field α → β
  | .val a => g a
  | _ => zero

/-- The `number` object of the documented wire contract: a length (an
integer) and a luhn flag. -/
structure SpecNumber where
  length : Field Int
  luhn : Field Bool

/-- The JSON form of a `number` object, keys as documented. -/
def SpecNumber.toJson (x : SpecNumber) : Json :=
  .obj (Field.entry "length" (fun (n : ℤ) => Json.num (n : ℚ)) x.length ++
        Field.entry "luhn" Json.bool x.luhn)

/-- The record the spec promises for a `number` object. -/
def SpecNumber.toRecord (x : SpecNumber) : Number :=
  { Length := x.length.zeroOr 0, Luhn := x.luhn.zeroOr false }

/-- The `country` object of the documented wire contract. -/
structure SpecCountry where
  numeric : Field String
  alpha2 : Field String
  name : Field String
  emoji : Field String
  currency : Field String
  latitude : Field ℚ
  longitude : Field ℚ

/-- The JSON form of a `country` object, keys in the documented
order. -/
def SpecCountry.toJson (c : SpecCountry) : Json :=
  .obj (Field.entry "numeric" Json.str c.numeric ++
       (Field.entry "alpha2" Json.str c.alpha2 ++
       (Field.entry "name" Json.str c.name ++
       (Field.entry "emoji" Json.str c.emoji ++
       (Field.entry "currency" Json.str c.currency ++
       (Field.entry "latitude" Json.num c.latitude ++
        Field.entry "longitude" Json.num c.longitude))))))

/-- The record the spec promises for a `country` object. -/
def SpecCountry.toRecord (c : SpecCountry) : Country :=
  { Numeric := c.numeric.zeroOr "", Name := c.name.zeroOr "",
    Emoji := c.emoji.zeroOr "", Currency := c.currency.zeroOr "",
    Short := c.alpha2.zeroOr "", Lat := c.latitude.zeroOr 0,
    Long := c.longitude.zeroOr 0 }

/-- The `bank` object of the documented wire contract. -/
structure SpecBank where
  name : Field String
  url : Field String
  phone : Field String
  city : Field String

/-- The JSON form of a `bank` object. -/
def SpecBank.toJson (k : SpecBank) : Json :=
  .obj (Field.entry "name" Json.str k.name ++
       (Field.entry "url" Json.str k.url ++
       (Field.entry "phone" Json.str k.phone ++
        Field.entry "city" Json.str k.city)))

/-- The record the spec promises for a `bank` object. -/
def SpecBank.toRecord (k : SpecBank) : Bank :=
  { Name := k.name.zeroOr "", URL := k.url.zeroOr "",
    Phone := k.phone.zeroOr "", City := k.city.zeroOr "" }

/-- A whole success payload of the documented wire contract: the seven
documented top-level members, each optional and nullable. -/
structure SpecPayload where
  number : Field SpecNumber
  scheme : Field String
  type : Field String
  brand : Field String
  prepaid : Field Bool
  country : Field SpecCountry
  bank : Field SpecBank

/-- The JSON form of a success payload, keys in the documented
order. -/
def SpecPayload.toJson (p : SpecPayload) : Json :=
  .obj (Field.entry "number" SpecNumber.toJson p.number ++
       (Field.entry "scheme" Json.str p.scheme ++
       (Field.entry "type" Json.str p.type ++
       (Field.entry "brand" Json.str p.brand ++
       (Field.entry "prepaid" Json.bool p.prepaid ++
       (Field.entry "country" SpecCountry.toJson p.country ++
        Field.entry "bank" SpecBank.toJson p.bank))))))

/-- The `BIN` record the spec promises for a success payload: a direct,
lossless structural mapping, with zero values for whatever upstream
omits. -/
def SpecPayload.toRecord (p : SpecPayload) : BIN :=
  { Number := p.number.nested {} SpecNumber.toRecord,
    Scheme := p.scheme.zeroOr "",
    «Type» := p.type.zeroOr "",
    Brand := p.brand.zeroOr "",
    Prepaid := p.prepaid.zeroOr false,
    Country := p.country.nested {} SpecCountry.toRecord,
    Bank := p.bank.nested {} SpecBank.toRecord }

/-- A predicate holding of the value of a field when present (absent
and null fields satisfy everything). -/
def Field.allB {α : Type} (P : α → Bool) : Field α → Bool
  | .val a => P a
  | _ => true

/-- An integer within the range of the Go int type. -/
def int64Range (n : ℤ) : Bool :=
  decide (int64Min ≤ n) && decide (n ≤ int64Max)

/-- A rational left fixed by float64 rounding, that is, a value
exactly representable as a float64. -/
def roundFixes (q : ℚ) : Bool :=
  match roundFloat64 q with
  | .ok r => decide (r = q)
  | .error _ => false

/-- A `number` object whose length fits the Go int type. -/
def SpecNumber.inDomain (x : SpecNumber) : Bool :=
  x.length.allB int64Range

/-- A `country` object whose latitude and longitude are exactly
representable as float64 values. -/
def SpecCountry.inDomain (c : SpecCountry) : Bool :=
  c.latitude.allB roundFixes && c.longitude.allB roundFixes

/-- A payload whose numeric fields all lie exactly in the domains of
the record field types, so that decoding copies them without loss. -/
def SpecPayload.inDomain (p : SpecPayload) : Bool :=
  p.number.allB SpecNumber.inDomain && p.country.allB SpecCountry.inDomain

/-- A sample success payload exercising present, null and absent
fields at once. -/
def samplePayload : SpecPayload :=
  { number := .val { length := .val 16, luhn := .val true },
    scheme := .val "visa",
    type := .val "debit",
    brand := .null,
    prepaid := .absent,
    country := .val
      { numeric := .val "0208", alpha2 := .val "DK",
        name := .val "Denmark", emoji := .null, currency := .val "DKK",
        latitude := .val 56, longitude := .val 10 },
    bank := .val
      { name := .val "Jyske Bank", url := .absent,
        phone := .null, city := .val "Hjoerring" } }

/-- A transport whose upstream always answers 200 with the sample
payload. -/
def sampleTransport : Transport :=
  fun _ => .response 200 (.value samplePayload.toJson)

/-- A transport that always fails at the network layer. -/
def failTransport : Transport :=
  fun r => .failure "Get" r.url "dial tcp: connection refused"

/-- A transport whose upstream always answers 404 with a plain text
body. -/
def notFoundTransport : Transport :=
  fun _ => .response 404 (.malformed "invalid character N looking for beginning of value")

/-- A transport whose upstream always answers 429. -/
def throttledTransport : Transport :=
  fun _ => .response 429 (.malformed "Too Many Requests")

/-- A transport whose upstream always answers 200 with the body
null. -/
def nullTransport : Transport :=
  fun _ => .response 200 (.value .null)

/-- A transport that answers 200 null exactly on the lookup URL of one
sample BIN and fails on every other request. -/
def pinnedTransport : Transport :=
  fun r =>
    if r.url = "https://lookup.binlist.net/5288230" then .response 200 (.value .null)
    else .failure "Get" r.url "unreachable"

/-- A transport whose upstream always answers 200 with a body that is
not valid JSON. -/
def badBodyTransport : Transport :=
  fun _ => .response 200 (.malformed "unexpected EOF")

/-- A transport whose upstream always answers 200 with well-formed
JSON of the wrong shape: prepaid is a number, not a bool.  Decoding
saves the type error but still allocates and returns the record. -/
def badShapeTransport : Transport :=
  fun _ => .response 200 (.value (.obj [("prepaid", Json.num 5)]))

/-- A payload whose latitude, the decimal 55.6761, is not exactly
representable as a float64, so decoding stores the nearest float64
instead of the exact decimal value. -/
def latPayload : SpecPayload :=
  { number := .absent, scheme := .absent, type := .absent, brand := .absent,
    prepaid := .absent,
    country := .val
      { numeric := .absent, alpha2 := .absent, name := .absent,
        emoji := .absent, currency := .absent,
        latitude := .val (mkRat 556761 10000), longitude := .absent },
    bank := .absent }

/-- A transport whose upstream always answers 200 with the
non-representable-latitude payload. -/
def latTransport : Transport :=
  fun _ => .response 200 (.value latPayload.toJson)

/-!
Refinement of the embedded decoder against the spec-side payload
model: decoding the JSON form of any documented payload succeeds and
yields exactly the record the spec promises.
-/

/-- A rational certified fixed by float64 rounding indeed rounds to
itself. -/
theorem roundFixes_ok (q : ℚ) (h : roundFixes q = true) : roundFloat64 q = .ok q := by
  unfold roundFixes at h
  cases hr : roundFloat64 q with
  | ok r =>
    rw [hr] at h
    have hrq : r = q := of_decide_eq_true h
    rw [hrq]
  | error m =>
    rw [hr] at h
    exact absurd h (by simp)

/-- An integer certified within range is within range. -/
theorem int64Range_le (n : ℤ) (h : int64Range n = true) :
    int64Min ≤ n ∧ n ≤ int64Max := by
  unfold int64Range at h
  rw [Bool.and_eq_true] at h
  exact ⟨of_decide_eq_true h.1, of_decide_eq_true h.2⟩

theorem numberEntryLength (f : Field Int) (acc : Number)
    (h : f.allB int64Range = true) :
    List.foldl (foldStep stepNumber) (acc, none)
      (Field.entry "length" (fun (n : ℤ) => Json.num (n : ℚ)) f)
      = ({ acc with Length := f.zeroOr acc.Length }, none) := by
  cases f with
  | absent => rfl
  | null => rfl
  | val L =>
    have hb : int64Min ≤ L ∧ L ≤ int64Max := int64Range_le L h
    have hstep : List.foldl (foldStep stepNumber) (acc, none)
        (Field.entry "length" (fun (n : ℤ) => Json.num (n : ℚ)) (Field.val L))
        = ({ acc with Length := (decodeInt (Json.num (L : ℚ)) acc.Length).1 },
            none <|> (decodeInt (Json.num (L : ℚ)) acc.Length).2) := rfl
    have hdec : decodeInt (Json.num (L : ℚ)) acc.Length
        = if int64Min ≤ L ∧ L ≤ int64Max then (L, none)
          else (acc.Length, some "json: cannot unmarshal number into Go value of type int") := rfl
    rw [hstep, hdec, if_pos hb]
    rfl

theorem numberEntryLuhn (f : Field Bool) (acc : Number) :
    List.foldl (foldStep stepNumber) (acc, none) (Field.entry "luhn" Json.bool f)
      = ({ acc with Luhn := f.zeroOr acc.Luhn }, none) := by
  cases f <;> rfl

/-- Decoding the JSON form of a documented `number` object whose
length is within the int range. -/
theorem decodeNumber_toJson (x : SpecNumber) (old : Number)
    (h : SpecNumber.inDomain x = true) :
    decodeNumber x.toJson old
      = ({ Length := x.length.zeroOr old.Length, Luhn := x.luhn.zeroOr old.Luhn }, none) := by
  simp only [SpecNumber.toJson, decodeNumber, runFields]
  rw [List.foldl_append, numberEntryLength x.length old h]
  exact numberEntryLuhn x.luhn _

theorem countryEntryNumeric (f : Field String) (acc : Country) :
    List.foldl (foldStep stepCountry) (acc, none) (Field.entry "numeric" Json.str f)
      = ({ acc with Numeric := f.zeroOr acc.Numeric }, none) := by
  cases f <;> rfl

theorem countryEntryAlpha2 (f : Field String) (acc : Country) :
    List.foldl (foldStep stepCountry) (acc, none) (Field.entry "alpha2" Json.str f)
      = ({ acc with Short := f.zeroOr acc.Short }, none) := by
  cases f <;> rfl

theorem countryEntryName (f : Field String) (acc : Country) :
    List.foldl (foldStep stepCountry) (acc, none) (Field.entry "name" Json.str f)
      = ({ acc with Name := f.zeroOr acc.Name }, none) := by
  cases f <;> rfl

theorem countryEntryEmoji (f : Field String) (acc : Country) :
    List.foldl (foldStep stepCountry) (acc, none) (Field.entry "emoji" Json.str f)
      = ({ acc with Emoji := f.zeroOr acc.Emoji }, none) := by
  cases f <;> rfl

theorem countryEntryCurrency (f : Field String) (acc : Country) :
    List.foldl (foldStep stepCountry) (acc, none) (Field.entry "currency" Json.str f)
      = ({ acc with Currency := f.zeroOr acc.Currency }, none) := by
  cases f <;> rfl

theorem countryEntryLatitude (f : Field ℚ) (acc : Country)
    (h : f.allB roundFixes = true) :
    List.foldl (foldStep stepCountry) (acc, none) (Field.entry "latitude" Json.num f)
      = ({ acc with Lat := f.zeroOr acc.Lat }, none) := by
  cases f with
  | absent => rfl
  | null => rfl
  | val q =>
    have hr : roundFloat64 q = .ok q := roundFixes_ok q h
    have hstep : List.foldl (foldStep stepCountry) (acc, none)
        (Field.entry "latitude" Json.num (Field.val q))
        = ({ acc with Lat := (decodeFloat (Json.num q) acc.Lat).1 },
            none <|> (decodeFloat (Json.num q) acc.Lat).2) := rfl
    have hdec : decodeFloat (Json.num q) acc.Lat
        = (match roundFloat64 q with
           | .ok r => (r, none)
           | .error m => (acc.Lat, some m)) := rfl
    rw [hstep, hdec, hr]
    rfl

theorem countryEntryLongitude (f : Field ℚ) (acc : Country)
    (h : f.allB roundFixes = true) :
    List.foldl (foldStep stepCountry) (acc, none) (Field.entry "longitude" Json.num f)
      = ({ acc with Long := f.zeroOr acc.Long }, none) := by
  cases f with
  | absent => rfl
  | null => rfl
  | val q =>
    have hr : roundFloat64 q = .ok q := roundFixes_ok q h
    have hstep : List.foldl (foldStep stepCountry) (acc, none)
        (Field.entry "longitude" Json.num (Field.val q))
        = ({ acc with Long := (decodeFloat (Json.num q) acc.Long).1 },
            none <|> (decodeFloat (Json.num q) acc.Long).2) := rfl
    have hdec : decodeFloat (Json.num q) acc.Long
        = (match roundFloat64 q with
           | .ok r => (r, none)
           | .error m => (acc.Long, some m)) := rfl
    rw [hstep, hdec, hr]
    rfl

/-- Decoding the JSON form of a documented `country` object whose
latitude and longitude are float64 values. -/
theorem decodeCountry_toJson (c : SpecCountry) (old : Country)
    (h : SpecCountry.inDomain c = true) :
    decodeCountry c.toJson old
      = ({ Numeric := c.numeric.zeroOr old.Numeric,
           Name := c.name.zeroOr old.Name,
           Emoji := c.emoji.zeroOr old.Emoji,
           Currency := c.currency.zeroOr old.Currency,
           Short := c.alpha2.zeroOr old.Short,
           Lat := c.latitude.zeroOr old.Lat,
           Long := c.longitude.zeroOr old.Long }, none) := by
  unfold SpecCountry.inDomain at h
  rw [Bool.and_eq_true] at h
  simp only [SpecCountry.toJson, decodeCountry, runFields]
  rw [List.foldl_append, countryEntryNumeric c.numeric old,
      List.foldl_append, countryEntryAlpha2 c.alpha2 _,
      List.foldl_append, countryEntryName c.name _,
      List.foldl_append, countryEntryEmoji c.emoji _,
      List.foldl_append, countryEntryCurrency c.currency _,
      List.foldl_append, countryEntryLatitude c.latitude _ h.1]
  exact countryEntryLongitude c.longitude _ h.2

theorem bankEntryName (f : Field String) (acc : Bank) :
    List.foldl (foldStep stepBank) (acc, none) (Field.entry "name" Json.str f)
      = ({ acc with Name := f.zeroOr acc.Name }, none) := by
  cases f <;> rfl

theorem bankEntryURL (f : Field String) (acc : Bank) :
    List.foldl (foldStep stepBank) (acc, none) (Field.entry "url" Json.str f)
      = ({ acc with URL := f.zeroOr acc.URL }, none) := by
  cases f <;> rfl

theorem bankEntryPhone (f : Field String) (acc : Bank) :
    List.foldl (foldStep stepBank) (acc, none) (Field.entry "phone" Json.str f)
      = ({ acc with Phone := f.zeroOr acc.Phone }, none) := by
  cases f <;> rfl

theorem bankEntryCity (f : Field String) (acc : Bank) :
    List.foldl (foldStep stepBank) (acc, none) (Field.entry "city" Json.str f)
      = ({ acc with City := f.zeroOr acc.City }, none) := by
  cases f <;> rfl

/-- Decoding the JSON form of a documented `bank` object. -/
theorem decodeBank_toJson (k : SpecBank) (old : Bank) :
    decodeBank k.toJson old
      = ({ Name := k.name.zeroOr old.Name, URL := k.url.zeroOr old.URL,
           Phone := k.phone.zeroOr old.Phone, City := k.city.zeroOr old.City }, none) := by
  simp only [SpecBank.toJson, decodeBank, runFields]
  rw [List.foldl_append, bankEntryName k.name old,
      List.foldl_append, bankEntryURL k.url _,
      List.foldl_append, bankEntryPhone k.phone _]
  exact bankEntryCity k.city _

theorem binEntryNumber (f : Field SpecNumber) (acc : BIN)
    (h : f.allB SpecNumber.inDomain = true) :
    List.foldl (foldStep stepBIN) (acc, none) (Field.entry "number" SpecNumber.toJson f)
      = ({ acc with Number := f.nested acc.Number (fun n =>
          { Length := n.length.zeroOr acc.Number.Length,
            Luhn := n.luhn.zeroOr acc.Number.Luhn }) }, none) := by
  cases f with
  | absent => rfl
  | null => rfl
  | val n =>
    have hd := decodeNumber_toJson n acc.Number h
    have hstep : List.foldl (foldStep stepBIN) (acc, none)
        (Field.entry "number" SpecNumber.toJson (Field.val n))
        = ({ acc with Number := (decodeNumber (SpecNumber.toJson n) acc.Number).1 },
            none <|> (decodeNumber (SpecNumber.toJson n) acc.Number).2) := rfl
    rw [hstep, hd]
    rfl

theorem binEntryScheme (f : Field String) (acc : BIN) :
    List.foldl (foldStep stepBIN) (acc, none) (Field.entry "scheme" Json.str f)
      = ({ acc with Scheme := f.zeroOr acc.Scheme }, none) := by
  cases f <;> rfl

theorem binEntryType (f : Field String) (acc : BIN) :
    List.foldl (foldStep stepBIN) (acc, none) (Field.entry "type" Json.str f)
      = ({ acc with «Type» := f.zeroOr acc.«Type» }, none) := by
  cases f <;> rfl

theorem binEntryBrand (f : Field String) (acc : BIN) :
    List.foldl (foldStep stepBIN) (acc, none) (Field.entry "brand" Json.str f)
      = ({ acc with Brand := f.zeroOr acc.Brand }, none) := by
  cases f <;> rfl

theorem binEntryPrepaid (f : Field Bool) (acc : BIN) :
    List.foldl (foldStep stepBIN) (acc, none) (Field.entry "prepaid" Json.bool f)
      = ({ acc with Prepaid := f.zeroOr acc.Prepaid }, none) := by
  cases f <;> rfl

theorem binEntryCountry (f : Field SpecCountry) (acc : BIN)
    (h : f.allB SpecCountry.inDomain = true) :
    List.foldl (foldStep stepBIN) (acc, none) (Field.entry "country" SpecCountry.toJson f)
      = ({ acc with Country := f.nested acc.Country (fun c =>
          { Numeric := c.numeric.zeroOr acc.Country.Numeric,
            Name := c.name.zeroOr acc.Country.Name,
            Emoji := c.emoji.zeroOr acc.Country.Emoji,
            Currency := c.currency.zeroOr acc.Country.Currency,
            Short := c.alpha2.zeroOr acc.Country.Short,
            Lat := c.latitude.zeroOr acc.Country.Lat,
            Long := c.longitude.zeroOr acc.Country.Long }) }, none) := by
  cases f with
  | absent => rfl
  | null => rfl
  | val c =>
    have hd := decodeCountry_toJson c acc.Country h
    have hstep : List.foldl (foldStep stepBIN) (acc, none)
        (Field.entry "country" SpecCountry.toJson (Field.val c))
        = ({ acc with Country := (decodeCountry (SpecCountry.toJson c) acc.Country).1 },
            none <|> (decodeCountry (SpecCountry.toJson c) acc.Country).2) := rfl
    rw [hstep, hd]
    rfl

theorem binEntryBank (f : Field SpecBank) (acc : BIN) :
    List.foldl (foldStep stepBIN) (acc, none) (Field.entry "bank" SpecBank.toJson f)
      = ({ acc with Bank := f.nested acc.Bank (fun k =>
          { Name := k.name.zeroOr acc.Bank.Name,
            URL := k.url.zeroOr acc.Bank.URL,
            Phone := k.phone.zeroOr acc.Bank.Phone,
            City := k.city.zeroOr acc.Bank.City }) }, none) := by
  cases f with
  | absent => rfl
  | null => rfl
  | val k =>
    have hd := decodeBank_toJson k acc.Bank
    have hstep : List.foldl (foldStep stepBIN) (acc, none)
        (Field.entry "bank" SpecBank.toJson (Field.val k))
        = ({ acc with Bank := (decodeBank (SpecBank.toJson k) acc.Bank).1 },
            none <|> (decodeBank (SpecBank.toJson k) acc.Bank).2) := rfl
    rw [hstep, hd]
    rfl

/-- Decoding the JSON form of a whole documented success payload whose
numeric fields are within the record field domains gives exactly the
record the spec promises, with no saved decode error. -/
theorem decodeBIN_toJson (p : SpecPayload) (h : p.inDomain = true) :
    decodeBIN p.toJson {} = (p.toRecord, none) := by
  unfold SpecPayload.inDomain at h
  rw [Bool.and_eq_true] at h
  simp only [SpecPayload.toJson, decodeBIN, runFields]
  rw [List.foldl_append, binEntryNumber p.number {} h.1,
      List.foldl_append, binEntryScheme p.scheme _,
      List.foldl_append, binEntryType p.type _,
      List.foldl_append, binEntryBrand p.brand _,
      List.foldl_append, binEntryPrepaid p.prepaid _,
      List.foldl_append, binEntryCountry p.country _ h.2]
  exact binEntryBank p.bank _

/-- Decoding the JSON form of a documented success payload through the
pointer layer: the pointer is non-nil and carries the promised
record. -/
theorem decodeBINptr_toJson (p : SpecPayload) (h : p.inDomain = true) :
    decodeBINptr p.toJson = (some p.toRecord, none) := by
  have hd := decodeBIN_toJson p h
  have hshape : decodeBINptr p.toJson
      = (some (decodeBIN p.toJson {}).1, (decodeBIN p.toJson {}).2) := rfl
  rw [hshape, hd]

/-- C1: a string failing the validation pattern makes Search fail at
once with the validation error carrying the human-readable format
description, before any use of the transport: the whole outcome, with
an empty request list, is the same for every transport. -/
theorem c1_invalid_bin_rejected_without_network (client : Transport) (bin : String)
    (h : binMatch bin = false) :
    Search client bin
      = { b := none, err := some ValidationError, requests := [], bodiesClosed := 0 }
    ∧ ValidationError.message
      = "BIN must be fully numerical, first digit must be in range of 1-9, and the next digits must be 3-15 characters long." := by
  constructor
  · simp [Search, h]
  · rfl

/-- Witness for C1 at the incorrect BIN of the reference tests. -/
theorem c1_witness :
    binMatch "0812436" = false
    ∧ (Search nullTransport "0812436"
        = { b := none, err := some ValidationError, requests := [], bodiesClosed := 0 }
      ∧ ValidationError.message
        = "BIN must be fully numerical, first digit must be in range of 1-9, and the next digits must be 3-15 characters long.") :=
  ⟨by decide, c1_invalid_bin_rejected_without_network nullTransport "0812436" (by decide)⟩

/-- C2: a response with a status code other than 200 makes Search fail
with the wrapped StatusCodeError carrying exactly the observed code as
inspectable data, and a displayable message that contains the code and
its standard reason phrase. -/
theorem c2_status_error_carries_exact_code (client : Transport) (bin : String)
    (s : Nat) (body : Body)
    (hbin : binMatch bin = true)
    (hresp : client (lookupRequest bin) = .response s body)
    (hs : s ≠ 200) :
    ∃ e, (Search client bin).err = some e
      ∧ (Search client bin).b = none
      ∧ e = GoErr.wrap "Failed Due to Status Code Error" (.statusCodeError s)
      ∧ e.statusCode? = some s
      ∧ e.message = "Failed Due to Status Code Error: " ++ (toString s ++ " " ++ statusText s)
      ∧ ∃ pre post, e.message = pre ++ ((toString s ++ " " ++ statusText s) ++ post) := by
  have hlit : ("Failed Due to Status Code Error" ++ ": " : String)
      = "Failed Due to Status Code Error: " := by decide
  refine ⟨GoErr.wrap "Failed Due to Status Code Error" (.statusCodeError s),
    ?_, ?_, rfl, rfl, ?_, ?_⟩
  · simp [Search, hbin, hresp, hs]
  · simp [Search, hbin, hresp, hs]
  · simp [GoErr.message, hlit]
  · exact ⟨"Failed Due to Status Code Error: ", "",
      by simp [GoErr.message, hlit]⟩

/-- Witness for C2 at status 429, the rate-limiting code of the
upstream. -/
theorem c2_witness :
    binMatch "5288230" = true
    ∧ throttledTransport (lookupRequest "5288230")
        = .response 429 (.malformed "Too Many Requests")
    ∧ (429 : Nat) ≠ 200
    ∧ ∃ e, (Search throttledTransport "5288230").err = some e
      ∧ (Search throttledTransport "5288230").b = none
      ∧ e = GoErr.wrap "Failed Due to Status Code Error" (.statusCodeError 429)
      ∧ e.statusCode? = some 429
      ∧ e.message = "Failed Due to Status Code Error: "
          ++ (toString 429 ++ " " ++ statusText 429)
      ∧ ∃ pre post, e.message = pre ++ ((toString 429 ++ " " ++ statusText 429) ++ post) :=
  ⟨by decide, rfl, by decide,
   c2_status_error_carries_exact_code throttledTransport "5288230" 429
     (.malformed "Too Many Requests") (by decide) rfl (by decide)⟩

set_option maxRecDepth 8000 in
/-- C3 counterexample: latitude 55.6761 parses fine (the call succeeds
with no error) but the decoded record holds the nearest float64, which
is not the exact decimal value, so the mapping of the claim is not
lossless on every payload of the documented shape. -/
theorem c3_counterexample :
    binMatch "5288230" = true
    ∧ latTransport (lookupRequest "5288230")
        = .response 200 (.value latPayload.toJson)
    ∧ (Search latTransport "5288230").err = none
    ∧ (Search latTransport "5288230").b ≠ some latPayload.toRecord :=
  ⟨by decide, rfl, by decide, by decide⟩

/-- C3 (amended): a 200 response whose body is the JSON form of a
documented payload whose numeric fields lie exactly in the domains of
the record field types (length within the int range, latitude and
longitude exactly representable as float64) decodes to exactly the
record the spec promises: every present field copied as is, every
absent or null field as its zero-value equivalent, and no error.
Numeric fields outside those domains are not copied losslessly:
latitude and longitude are rounded to the nearest float64 and
out-of-range integers fail the decode. -/
theorem c3_success_is_lossless_mapping (client : Transport) (bin : String)
    (p : SpecPayload)
    (hbin : binMatch bin = true)
    (hdom : p.inDomain = true)
    (hresp : client (lookupRequest bin) = .response 200 (.value p.toJson)) :
    (Search client bin).b = some p.toRecord ∧ (Search client bin).err = none := by
  have hd : decodeBody (Body.value p.toJson) = (some p.toRecord, none) :=
    decodeBINptr_toJson p hdom
  constructor <;> simp [Search, hbin, hresp, hd]

set_option maxRecDepth 8000 in
/-- Witness for C3 at a payload mixing present, null and absent
fields. -/
theorem c3_witness :
    binMatch "45717360" = true
    ∧ samplePayload.inDomain = true
    ∧ sampleTransport (lookupRequest "45717360")
        = .response 200 (.value samplePayload.toJson)
    ∧ (Search sampleTransport "45717360").b = some samplePayload.toRecord
    ∧ (Search sampleTransport "45717360").err = none :=
  ⟨by decide, by decide, rfl,
   (c3_success_is_lossless_mapping sampleTransport "45717360" samplePayload
     (by decide) (by decide) rfl).1,
   (c3_success_is_lossless_mapping sampleTransport "45717360" samplePayload
     (by decide) (by decide) rfl).2⟩

/-- C4: a 200 response whose body fails to decode makes Search fail
with the wrapped decode error while the record pointer carries
whatever the decoder left behind (nil on a syntax error, the partially
decoded allocation on a shape error); the cause of the error is the
parse failure of the decoder and is never the StatusCodeError type, so
the two failure kinds stay distinguishable. -/
theorem c4_decode_failure_isolated (client : Transport) (bin : String)
    (body : Body) (m : String)
    (hbin : binMatch bin = true)
    (hresp : client (lookupRequest bin) = .response 200 body)
    (hdec : (decodeBody body).2 = some m) :
    ∃ e, (Search client bin).err = some e
      ∧ (Search client bin).b = (decodeBody body).1
      ∧ e = GoErr.wrap "JSON Unmarshaling Failed" (.jsonError m)
      ∧ e.cause = .jsonError m
      ∧ classify e = some .decode
      ∧ (∀ c : Nat, e.cause ≠ .statusCodeError c)
      ∧ e.statusCode? = none := by
  refine ⟨GoErr.wrap "JSON Unmarshaling Failed" (.jsonError m),
    ?_, ?_, rfl, rfl, rfl, ?_, rfl⟩
  · simp [Search, hbin, hresp, hdec]
  · simp [Search, hbin, hresp, hdec]
  · intro c hc
    exact GoErr.noConfusion hc

/-- Witness for C4 at a 200 response with well-formed JSON of the
wrong shape: the decode fails with the saved type error and the
partially decoded (here zero) record is returned alongside it. -/
theorem c4_witness :
    binMatch "5288230" = true
    ∧ badShapeTransport (lookupRequest "5288230")
        = .response 200 (.value (.obj [("prepaid", Json.num 5)]))
    ∧ (decodeBody (.value (.obj [("prepaid", Json.num 5)]))).2
        = some "json: cannot unmarshal value into Go value of type bool"
    ∧ ∃ e, (Search badShapeTransport "5288230").err = some e
      ∧ (Search badShapeTransport "5288230").b
          = (decodeBody (.value (.obj [("prepaid", Json.num 5)]))).1
      ∧ e = GoErr.wrap "JSON Unmarshaling Failed"
          (.jsonError "json: cannot unmarshal value into Go value of type bool")
      ∧ e.cause = .jsonError "json: cannot unmarshal value into Go value of type bool"
      ∧ classify e = some .decode
      ∧ (∀ c : Nat, e.cause ≠ .statusCodeError c)
      ∧ e.statusCode? = none :=
  ⟨by decide, rfl, by decide,
   c4_decode_failure_isolated badShapeTransport "5288230"
     (.value (.obj [("prepaid", Json.num 5)]))
     "json: cannot unmarshal value into Go value of type bool"
     (by decide) rfl (by decide)⟩

/-- C5: every error value Search returns classifies, by its own
structure alone, to exactly the failure kind that occurred on that
call. -/
theorem c5_error_structure_determines_kind (client : Transport) (bin : String)
    (e : GoErr)
    (h : (Search client bin).err = some e) :
    ∃ k, classify e = some k ∧ failureOf client bin = some k := by
  by_cases hb : binMatch bin = true
  · cases hc : client (lookupRequest bin) with
    | failure op u msg =>
      simp [Search, hb, hc] at h
      refine ⟨.transport, ?_, ?_⟩
      · rw [← h]
        rfl
      · simp [failureOf, hb, hc]
    | response s body =>
      by_cases hs : s = 200
      · subst hs
        cases hd : (decodeBody body).2 with
        | some m =>
          simp [Search, hb, hc, hd] at h
          refine ⟨.decode, ?_, ?_⟩
          · rw [← h]
            rfl
          · simp [failureOf, hb, hc, hd]
        | none =>
          simp [Search, hb, hc, hd] at h
      · simp [Search, hb, hc, hs] at h
        refine ⟨.status, ?_, ?_⟩
        · rw [← h]
          rfl
        · simp [failureOf, hb, hc, hs]
  · have hb2 : binMatch bin = false := by
      cases hbm : binMatch bin
      · rfl
      · exact absurd hbm hb
    simp [Search, hb2] at h
    refine ⟨.validation, ?_, ?_⟩
    · rw [← h]
      rfl
    · simp [failureOf, hb2]

/-- Witness for C5 at a transport failure. -/
theorem c5_witness :
    (Search failTransport "5288230").err
        = some (GoErr.urlError "Get" (upstreamURL "5288230") "dial tcp: connection refused")
    ∧ ∃ k, classify (GoErr.urlError "Get" (upstreamURL "5288230") "dial tcp: connection refused")
        = some k ∧ failureOf failTransport "5288230" = some k :=
  ⟨rfl,
   c5_error_structure_determines_kind failTransport "5288230"
     (GoErr.urlError "Get" (upstreamURL "5288230") "dial tcp: connection refused") rfl⟩

/-- C6: a call that passes validation issues exactly one outbound
request, never retrying, and closes the response body exactly once on
every path on which a response was obtained (and has no body to close
when the transport itself failed). -/
theorem c6_one_request_and_guaranteed_close (client : Transport) (bin : String)
    (hbin : binMatch bin = true) :
    (Search client bin).requests.length = 1
    ∧ (∀ s body, client (lookupRequest bin) = .response s body →
        (Search client bin).bodiesClosed = 1)
    ∧ (∀ op u msg, client (lookupRequest bin) = .failure op u msg →
        (Search client bin).bodiesClosed = 0) := by
  refine ⟨?_, ?_, ?_⟩
  · cases hc : client (lookupRequest bin) with
    | failure op u msg => simp [Search, hbin, hc]
    | response s body =>
      by_cases hs : s = 200
      · subst hs
        cases hd : (decodeBody body).2 with
        | some m => simp [Search, hbin, hc, hd]
        | none => simp [Search, hbin, hc, hd]
      · simp [Search, hbin, hc, hs]
  · intro s body hc
    by_cases hs : s = 200
    · subst hs
      cases hd : (decodeBody body).2 with
      | some m => simp [Search, hbin, hc, hd]
      | none => simp [Search, hbin, hc, hd]
    · simp [Search, hbin, hc, hs]
  · intro op u msg hc
    simp [Search, hbin, hc]

/-- Witness for C6 at a 404 response. -/
theorem c6_witness :
    binMatch "5288230" = true
    ∧ ((Search notFoundTransport "5288230").requests.length = 1
      ∧ (∀ s body, notFoundTransport (lookupRequest "5288230") = .response s body →
          (Search notFoundTransport "5288230").bodiesClosed = 1)
      ∧ (∀ op u msg, notFoundTransport (lookupRequest "5288230") = .failure op u msg →
          (Search notFoundTransport "5288230").bodiesClosed = 0)) :=
  ⟨by decide, c6_one_request_and_guaranteed_close notFoundTransport "5288230" (by decide)⟩

/-- C7: a 200 response whose body is the JSON value null yields a nil
record pointer and a nil error: success does not guarantee a populated
record. -/
theorem c7_null_payload_gives_nil_record (client : Transport) (bin : String)
    (hbin : binMatch bin = true)
    (hresp : client (lookupRequest bin) = .response 200 (.value .null)) :
    (Search client bin).b = none ∧ (Search client bin).err = none := by
  constructor <;> simp [Search, hbin, hresp, decodeBody, decodeBINptr]

/-- Witness for C7. -/
theorem c7_witness :
    binMatch "5288230" = true
    ∧ nullTransport (lookupRequest "5288230") = .response 200 (.value .null)
    ∧ (Search nullTransport "5288230").b = none
    ∧ (Search nullTransport "5288230").err = none :=
  ⟨by decide, rfl,
   (c7_null_payload_gives_nil_record nullTransport "5288230" (by decide) rfl).1,
   (c7_null_payload_gives_nil_record nullTransport "5288230" (by decide) rfl).2⟩

/-- C8: the outcome of Search depends only on the bin and on what the
transport answers to the one lookup request, so two sequential calls
with the same bin against an unchanged upstream are structurally equal:
there is no hidden state across calls. -/
theorem c8_unchanged_upstream_equal_results (t1 t2 : Transport) (bin : String)
    (h : t1 (lookupRequest bin) = t2 (lookupRequest bin)) :
    Search t1 bin = Search t2 bin := by
  simp only [Search]
  rw [h]

/-- Witness for C8: two different transports that agree on the lookup
request of one BIN. -/
theorem c8_witness :
    nullTransport (lookupRequest "5288230") = pinnedTransport (lookupRequest "5288230")
    ∧ Search nullTransport "5288230" = Search pinnedTransport "5288230" := by
  have hu : (lookupRequest "5288230").url = "https://lookup.binlist.net/5288230" := by
    decide
  have h : nullTransport (lookupRequest "5288230")
      = pinnedTransport (lookupRequest "5288230") := by
    simp [nullTransport, pinnedTransport, hu]
  exact ⟨h, c8_unchanged_upstream_equal_results nullTransport pinnedTransport "5288230" h⟩

/-- C9: with a valid bin, the one request issued is a GET whose URL is
exactly the fixed base followed by the bin string unchanged. -/
theorem c9_request_is_get_of_exact_url (client : Transport) (bin : String)
    (hbin : binMatch bin = true) :
    (Search client bin).requests
      = [{ method := "GET", url := "https://lookup.binlist.net/" ++ bin }] := by
  have h1 : (Search client bin).requests = [lookupRequest bin] := by
    cases hc : client (lookupRequest bin) with
    | failure op u msg => simp [Search, hbin, hc]
    | response s body =>
      by_cases hs : s = 200
      · subst hs
        cases hd : (decodeBody body).2 with
        | some m => simp [Search, hbin, hc, hd]
        | none => simp [Search, hbin, hc, hd]
      · simp [Search, hbin, hc, hs]
  rw [h1]
  simp [lookupRequest, upstreamURL]

/-- Witness for C9. -/
theorem c9_witness :
    binMatch "45717360" = true
    ∧ (Search nullTransport "45717360").requests
      = [{ method := "GET", url := "https://lookup.binlist.net/" ++ "45717360" }] :=
  ⟨by decide, c9_request_is_get_of_exact_url nullTransport "45717360" (by decide)⟩

/-- C10: the default HTTP client of the package has a timeout of
exactly 10 seconds (10 times time.Second, in nanoseconds), and the
transport Search uses is the configurable client. -/
theorem c10_default_client_timeout_ten_seconds :
    Client.Timeout = 10 * timeSecond ∧ Client.Timeout = 10000000000 :=
  ⟨rfl, rfl⟩

end Binlookup
